import Mathlib

/-!
Verification of the dependency-injection container of `fastapi_toolkit`
(`src/fastapi_toolkit/dependency_injection.py`), as a shallow embedding.

Modelling choices, all taken from the source:
* A `ServiceKey` (a Python type object used as a dict key) is a `Key := Nat`.
* Run-time objects are `Value`: either an opaque instance (`prim`) or an
  auto-wired instance `obj k fields`, recording the class it was built from
  and the keyword arguments the constructor received.
* `DIContainer` holds the three separate dicts of `DIContainer.__init__`:
  `_services`, `_singletons`, `_factories` (lines 13-16).
* Python classes and their constructor signatures (what `inspect.signature`
  and `get_type_hints` see in `_auto_wire`) are an environment
  `Env.classes : Key → Option (List Param)`; a `Param` has a name, an
  optional type hint and an optional default value.  `inspect.isclass k`
  is `(env.classes k).isSome`.
* Factories are modelled as functions `Nat → Value` of an invocation clock,
  so that an impure factory can return a different value on each call; a
  resolution returns, besides its result, the advanced clock and the log of
  factory invocations it performed.  The container state is threaded through
  and returned, so that the absence of mutation is a theorem, not a
  modelling artifact.
* Python's recursion-depth limit is a fuel parameter: `resolveFuel env n`
  embeds `DIContainer.get` allowed `n` nested resolve calls, and returns
  the distinguished error `Err.depthExceeded` when the fuel runs out
  (the stack-overflow / RecursionError outcome).
* `ValueError(f"No registration found for {interface}")` (line 48) is
  `Err.unresolvedDependency`, the spec's `UnresolvedDependency`;
  `ValueError(f"Failed to auto-wire {cls}: {e}")` (line 69) is
  `Err.autoWireFailure k cause`, the spec's `AutoWireFailure` wrapping its
  cause; the `TypeError` Python raises when `cls(**kwargs)` misses a
  required argument is `Err.missingArgument`.
-/

namespace PyToolkit

abbrev Key := Nat

/-- Run-time values: opaque instances, or auto-wired instances recording the
class and the keyword arguments passed to its constructor. -/
inductive Value where
  | prim : Nat → Value
  | obj : Key → List (String × Value) → Value

/-- A constructor parameter as `_auto_wire` sees it: its name, the type hint
`get_type_hints(cls.__init__).get(name)` (none when unannotated), and its
default value if it has one.  The implicit `self` parameter is excluded. -/
structure Param where
  name : String
  hint : Option Key
  dflt : Option Value

/-- The ambient world of Python classes: for a constructible key, the
parameter list of its constructor. -/
structure Env where
  classes : Key → Option (List Param)

/-- Error taxonomy of resolution (section 7 of the spec, mapped onto the
`ValueError`s/`TypeError` of the source; `depthExceeded` is the
RecursionError / stack-overflow outcome). -/
inductive Err where
  | unresolvedDependency : Key → Err
  | autoWireFailure : Key → Err → Err
  | missingArgument : Key → String → Err
  | depthExceeded : Err
deriving DecidableEq

/-- The container's three backing dicts, in the order `__init__` creates
them: `_services`, `_singletons`, `_factories` (lines 14-16). -/
structure DIContainer where
  services : Key → Option Value
  singletons : Key → Option Value
  factories : Key → Option (Nat → Value)

/-- The empty container produced by `DIContainer.__init__`. -/
def DIContainer.empty : DIContainer :=
  ⟨fun _ => none, fun _ => none, fun _ => none⟩

/-- `register_singleton` (lines 18-20): `self._singletons[interface] = implementation`. -/
def register_singleton (c : DIContainer) (k : Key) (v : Value) : DIContainer :=
  ⟨c.services, fun k' => if k' = k then some v else c.singletons k', c.factories⟩

/-- `register_transient` (lines 22-24): `self._factories[interface] = factory`. -/
def register_transient (c : DIContainer) (k : Key) (f : Nat → Value) : DIContainer :=
  ⟨c.services, c.singletons, fun k' => if k' = k then some f else c.factories k'⟩

/-- `register_instance` (lines 26-28): `self._services[interface] = instance`. -/
def register_instance (c : DIContainer) (k : Key) (v : Value) : DIContainer :=
  ⟨fun k' => if k' = k then some v else c.services k', c.singletons, c.factories⟩

/-- Outcome of one resolution: the result, the container state after it, the
advanced factory-invocation clock, and the log of factory invocations. -/
structure RRes where
  res : Except Err Value
  st : DIContainer
  clock : Nat
  log : List Key

/-- Outcome of building the kwargs dict in `_auto_wire` (lines 57-65). -/
structure KRes where
  res : Except Err (List (String × Value))
  st : DIContainer
  clock : Nat
  log : List Key

/-- First binding for a name in a kwargs list. -/
def findArg (nm : String) : List (String × Value) → Option Value
  | [] => none
  | (n, v) :: rest => if n = nm then some v else findArg nm rest

/-- The binding check of `cls(**kwargs)`: each parameter takes its kwargs
entry when present, its default otherwise, and the call raises (returning
the offending name) when a parameter has neither. -/
def buildFields : List Param → List (String × Value) → Except String (List (String × Value))
  | [], _ => .ok []
  | p :: ps, kw =>
    match findArg p.name kw with
    | some v => (buildFields ps kw).map (fun l => (p.name, v) :: l)
    | none =>
      match p.dflt with
      | some d => (buildFields ps kw).map (fun l => (p.name, d) :: l)
      | none => .error p.name

/-- `return cls(**kwargs)` (line 66): construct the instance, or fail with
the `TypeError` for the first missing required argument. -/
def callCtor (k : Key) (params : List Param) (kw : List (String × Value)) : Except Err Value :=
  match buildFields params kw with
  | .error nm => .error (.missingArgument k nm)
  | .ok fields => .ok (.obj k fields)

/-- The kwargs loop of `_auto_wire` (lines 58-64): walk the parameters in
order; a parameter without a type hint is skipped (`if param_type:`), one
with a hint `k` is resolved by a nested `self.get(k)` (the `get` passed in
here), the first nested failure aborting the loop.  The container state and
the invocation clock/log are threaded through the nested calls. -/
def buildKwargs (get : DIContainer → Key → Nat → RRes) :
    DIContainer → List Param → Nat → KRes
  | c, [], t => ⟨.ok [], c, t, []⟩
  | c, p :: ps, t =>
    match p.hint with
    | none => buildKwargs get c ps t
    | some k =>
      let r := get c k t
      match r.res with
      | .error e => ⟨.error e, r.st, r.clock, r.log⟩
      | .ok v =>
        let rest := buildKwargs get r.st ps r.clock
        ⟨rest.res.map (fun l => (p.name, v) :: l), rest.st, rest.clock, r.log ++ rest.log⟩

/-- `_auto_wire` (lines 50-69) given the nested resolver: build the kwargs,
call the constructor, and wrap any exception that escaped the `try` block
(a nested resolution failure or the constructor's `TypeError`) in
`Err.autoWireFailure` — the `except Exception` / re-raise of line 68-69. -/
def autoWireWith (get : DIContainer → Key → Nat → RRes)
    (c : DIContainer) (k : Key) (params : List Param) (t : Nat) : RRes :=
  let b := buildKwargs get c params t
  match b.res with
  | .error e => ⟨.error (.autoWireFailure k e), b.st, b.clock, b.log⟩
  | .ok kw =>
    match callCtor k params kw with
    | .error e => ⟨.error (.autoWireFailure k e), b.st, b.clock, b.log⟩
    | .ok v => ⟨.ok v, b.st, b.clock, b.log⟩

/-- `DIContainer.get` (lines 30-48) with fuel `n` bounding the depth of
nested resolve calls: singletons first, then registered instances, then
factories (invoked, result returned uncached, the invocation logged), then
the auto-wire fallback when the key is a class, else
`Err.unresolvedDependency`. -/
def resolveFuel (env : Env) : Nat → DIContainer → Key → Nat → RRes
  | 0, c, _, t => ⟨.error .depthExceeded, c, t, []⟩
  | n + 1, c, k, t =>
    match c.singletons k with
    | some v => ⟨.ok v, c, t, []⟩
    | none =>
      match c.services k with
      | some v => ⟨.ok v, c, t, []⟩
      | none =>
        match c.factories k with
        | some f => ⟨.ok (f t), c, t + 1, [k]⟩
        | none =>
          match env.classes k with
          | some params => autoWireWith (resolveFuel env n) c k params t
          | none => ⟨.error (.unresolvedDependency k), c, t, []⟩

/-- `m` successive `resolve` calls on the same key, threading the
invocation clock; returns the concatenated invocation log. -/
def resolveN (env : Env) (n : Nat) (c : DIContainer) (k : Key) : Nat → Nat → List Key
  | 0, _ => []
  | m + 1, t =>
    let r := resolveFuel env n c k t
    r.log ++ resolveN env n c k m r.clock

/-- A resolution error is a depth failure when it is `depthExceeded`,
possibly wrapped in layers of `autoWireFailure` (in Python, the
RecursionError is caught and re-wrapped by each enclosing `_auto_wire`). -/
def isDepthFailure : Err → Bool
  | .depthExceeded => true
  | .autoWireFailure _ e => isDepthFailure e
  | _ => false

/-- Whether a resolution outcome is a depth (stack/recursion) failure. -/
def resIsDepthFailure : Except Err Value → Bool
  | .error e => isDepthFailure e
  | .ok _ => false

/-- The effective fixed-instance binding of a key: the singleton entry if
present, else the instance entry — the first two steps of `get`. -/
def effBinding (c : DIContainer) (k : Key) : Option Value :=
  match c.singletons k with
  | some v => some v
  | none => c.services k

/-! ### Concrete sample containers and class environments -/

/-- An environment with no constructible classes. -/
def envW : Env := ⟨fun _ => none⟩

/-- A factory returning the current invocation clock — an impure factory. -/
def fW : Nat → Value := fun t => .prim t

/-- A constant factory. -/
def fC2 : Nat → Value := fun _ => .prim 1

/-- Key 0 registered as a singleton only. -/
def cSingle : DIContainer := register_singleton DIContainer.empty 0 (.prim 4)

/-- Key 0 registered as an instance only, with the same value as `cSingle`. -/
def cInst4 : DIContainer := register_instance DIContainer.empty 0 (.prim 4)

/-- Key 0 registered under all three variants with distinguishable values. -/
def cAllW : DIContainer :=
  register_transient
    (register_instance (register_singleton DIContainer.empty 0 (.prim 1)) 0 (.prim 2)) 0 fW

/-- Key 0 registered as an instance and a factory (no singleton). -/
def cInstF : DIContainer := register_transient (register_instance DIContainer.empty 0 (.prim 2)) 0 fW

/-- Key 0 registered as a factory only. -/
def cFact : DIContainer := register_transient DIContainer.empty 0 fW

/-- register_singleton(0, prim 0) then register_transient(0, fC2). -/
def cC2 : DIContainer := register_transient (register_singleton DIContainer.empty 0 (.prim 0)) 0 fC2

/-- register_singleton(0, prim 0) then register_instance(0, prim 1). -/
def cC3s : DIContainer := register_instance (register_singleton DIContainer.empty 0 (.prim 0)) 0 (.prim 1)

/-- The same sequence with the register_singleton call swapped for register_instance. -/
def cC3i : DIContainer := register_instance (register_instance DIContainer.empty 0 (.prim 0)) 0 (.prim 1)

/-- register_transient(0, fC2) then register_singleton(0, prim 5). -/
def cC5 : DIContainer := register_singleton (register_transient DIContainer.empty 0 fC2) 0 (.prim 5)

/-- Class 5 has one parameter `x` annotated with key 0. -/
def envAuto : Env := ⟨fun k => if k = 5 then some [⟨"x", some 0, none⟩] else none⟩

/-- Key 0 registered as the singleton `prim 10`. -/
def cU : DIContainer := register_singleton DIContainer.empty 0 (.prim 10)

/-- Class 5 has one unannotated parameter `x` with default `prim 7`. -/
def envDflt : Env := ⟨fun k => if k = 5 then some [⟨"x", none, some (.prim 7)⟩] else none⟩

/-- Class 5 has one unannotated parameter `x` with no default. -/
def envNoD : Env := ⟨fun k => if k = 5 then some [⟨"x", none, none⟩] else none⟩

/-- Class 5 has one parameter `x` annotated with the unregistered, non-class key 9. -/
def envHint9 : Env := ⟨fun k => if k = 5 then some [⟨"x", some 9, none⟩] else none⟩

/-- Class 5's constructor depends on class 5 itself: a direct cycle. -/
def envLoop : Env := ⟨fun k => if k = 5 then some [⟨"x", some 5, none⟩] else none⟩

/-- A rank function witnessing that `envAuto`'s dependency graph is acyclic. -/
def rankW : Key → Nat := fun k => if k = 5 then 1 else 0

/-! ### State preservation: resolution never writes to the backing dicts -/

theorem buildKwargs_st (get : DIContainer → Key → Nat → RRes) (c : DIContainer)
    (hget : ∀ c' k t, (get c' k t).st = c') :
    ∀ ps t, (buildKwargs get c ps t).st = c := by
  intro ps
  induction ps generalizing c with
  | nil => intro t; rfl
  | cons p ps ih =>
    intro t
    cases hh : p.hint with
    | none => simp [buildKwargs, hh, ih c]
    | some k =>
      cases hr : (get c k t).res with
      | error e => simp [buildKwargs, hh, hr, hget]
      | ok v =>
        have h1 : (get c k t).st = c := hget c k t
        simp [buildKwargs, hh, hr, h1, ih c]

theorem autoWireWith_st (get : DIContainer → Key → Nat → RRes) (c : DIContainer)
    (hget : ∀ c' k t, (get c' k t).st = c')
    (k : Key) (ps : List Param) (t : Nat) : (autoWireWith get c k ps t).st = c := by
  have hb := buildKwargs_st get c hget ps t
  unfold autoWireWith
  cases hr : (buildKwargs get c ps t).res with
  | error e => simpa [hr] using hb
  | ok kw =>
    cases hc : callCtor k ps kw with
    | error e => simpa [hr, hc] using hb
    | ok v => simpa [hr, hc] using hb

theorem resolveFuel_st (env : Env) :
    ∀ (n : Nat) (c : DIContainer) (k : Key) (t : Nat), (resolveFuel env n c k t).st = c := by
  intro n
  induction n with
  | zero => intro c k t; rfl
  | succ n ih =>
    intro c k t
    cases h1 : c.singletons k with
    | some v => simp [resolveFuel, h1]
    | none =>
      cases h2 : c.services k with
      | some v => simp [resolveFuel, h1, h2]
      | none =>
        cases h3 : c.factories k with
        | some f => simp [resolveFuel, h1, h2, h3]
        | none =>
          cases h4 : env.classes k with
          | some ps =>
            have := autoWireWith_st (resolveFuel env n) c (fun c' k' t' => ih c' k' t') k ps t
            simpa [resolveFuel, h1, h2, h3, h4] using this
          | none => simp [resolveFuel, h1, h2, h3, h4]

/-- Stepping lemma: on a key with no registration that denotes a class,
`get` falls through to the auto-wire branch with one unit of fuel spent. -/
theorem resolve_step_class (env : Env) (n : Nat) (c : DIContainer) (k : Key) (t : Nat)
    (ps : List Param) (h1 : c.singletons k = none) (h2 : c.services k = none)
    (h3 : c.factories k = none) (h4 : env.classes k = some ps) :
    resolveFuel env (n + 1) c k t = autoWireWith (resolveFuel env n) c k ps t := by
  simp [resolveFuel, h1, h2, h3, h4]

/-! ### Claim theorems -/

/-- Claim C1: for every key, `get` follows the resolution order with first
match winning: (1) the singleton mapping, (2) the instance (`_services`)
mapping, (3) the factory mapping (invoking the factory and returning its
result uncached — the invocation is logged and nothing is written back),
(4) the auto-wire fallback when the key denotes a constructible type, and
(5) otherwise failure with `UnresolvedDependency` naming the key. -/
theorem c1_resolution_order (env : Env) (n : Nat) (c : DIContainer) (k : Key) (t : Nat) :
    (∀ v, c.singletons k = some v → resolveFuel env (n + 1) c k t = ⟨.ok v, c, t, []⟩)
    ∧ (∀ v, c.singletons k = none → c.services k = some v →
        resolveFuel env (n + 1) c k t = ⟨.ok v, c, t, []⟩)
    ∧ (∀ f, c.singletons k = none → c.services k = none → c.factories k = some f →
        resolveFuel env (n + 1) c k t = ⟨.ok (f t), c, t + 1, [k]⟩)
    ∧ (∀ ps, c.singletons k = none → c.services k = none → c.factories k = none →
        env.classes k = some ps →
        resolveFuel env (n + 1) c k t = autoWireWith (resolveFuel env n) c k ps t)
    ∧ (c.singletons k = none → c.services k = none → c.factories k = none →
        env.classes k = none →
        resolveFuel env (n + 1) c k t = ⟨.error (.unresolvedDependency k), c, t, []⟩) := by
  refine ⟨?_, ?_, ?_, ?_, ?_⟩
  · intro v h1; simp [resolveFuel, h1]
  · intro v h1 h2; simp [resolveFuel, h1, h2]
  · intro f h1 h2 h3; simp [resolveFuel, h1, h2, h3]
  · intro ps h1 h2 h3 h4; simp [resolveFuel, h1, h2, h3, h4]
  · intro h1 h2 h3 h4; simp [resolveFuel, h1, h2, h3, h4]

/-- Witness for C1: each of the five clauses at a concrete input — a key
bound under all three variants resolves to the singleton; with no singleton,
to the instance; with only a factory, to a fresh factory invocation
(logged, clock advanced); an unregistered class key goes to the auto-wire
fallback; an unregistered non-class key fails with UnresolvedDependency. -/
theorem c1_resolution_order_witness :
    resolveFuel envW 1 cAllW 0 0 = ⟨.ok (.prim 1), cAllW, 0, []⟩
    ∧ resolveFuel envW 1 cInstF 0 0 = ⟨.ok (.prim 2), cInstF, 0, []⟩
    ∧ resolveFuel envW 1 cFact 0 0 = ⟨.ok (.prim 0), cFact, 1, [0]⟩
    ∧ resolveFuel envAuto 2 DIContainer.empty 5 0
        = autoWireWith (resolveFuel envAuto 1) DIContainer.empty 5 [⟨"x", some 0, none⟩] 0
    ∧ resolveFuel envW 1 DIContainer.empty 3 0
        = ⟨.error (.unresolvedDependency 3), DIContainer.empty, 0, []⟩ := by
  refine ⟨?_, ?_, ?_, ?_, ?_⟩
  · exact (c1_resolution_order envW 0 cAllW 0 0).1 (.prim 1) rfl
  · exact (c1_resolution_order envW 0 cInstF 0 0).2.1 (.prim 2) rfl rfl
  · exact (c1_resolution_order envW 0 cFact 0 0).2.2.1 fW rfl rfl rfl
  · exact (c1_resolution_order envAuto 1 DIContainer.empty 5 0).2.2.2.1
      [⟨"x", some 0, none⟩] rfl rfl rfl rfl
  · exact (c1_resolution_order envW 0 DIContainer.empty 3 0).2.2.2.2 rfl rfl rfl rfl

/-- Claim C4: a key whose singleton entry is `v` resolves to exactly `v` on
every call (any clock, any fuel), and registrations under unrelated keys —
via any of the three variants — leave that resolution unchanged. -/
theorem c4_singleton_stable (env : Env) (n : Nat) (c : DIContainer) (k : Key) (v : Value)
    (h : c.singletons k = some v) (t : Nat) :
    (resolveFuel env (n + 1) c k t).res = .ok v
    ∧ (∀ k' w, k' ≠ k → (resolveFuel env (n + 1) (register_singleton c k' w) k t).res = .ok v)
    ∧ (∀ k' w, k' ≠ k → (resolveFuel env (n + 1) (register_instance c k' w) k t).res = .ok v)
    ∧ (∀ k' f, k' ≠ k → (resolveFuel env (n + 1) (register_transient c k' f) k t).res = .ok v) := by
  refine ⟨by simp [resolveFuel, h], ?_, ?_, ?_⟩
  · intro k' w hne
    have hs : (register_singleton c k' w).singletons k = some v := by
      simp [register_singleton, Ne.symm hne, h]
    simp [resolveFuel, hs]
  · intro k' w hne
    have hs : (register_instance c k' w).singletons k = some v := h
    simp [resolveFuel, hs]
  · intro k' f hne
    have hs : (register_transient c k' f).singletons k = some v := h
    simp [resolveFuel, hs]

/-- Witness for C4: key 0 holds singleton `prim 4`; it resolves to `prim 4`
before and after registrations under the unrelated key 1. -/
theorem c4_singleton_stable_witness :
    (resolveFuel envW 1 cSingle 0 0).res = .ok (.prim 4)
    ∧ (resolveFuel envW 1 (register_singleton cSingle 1 (.prim 9)) 0 0).res = .ok (.prim 4)
    ∧ (resolveFuel envW 1 (register_instance cSingle 1 (.prim 9)) 0 0).res = .ok (.prim 4)
    ∧ (resolveFuel envW 1 (register_transient cSingle 1 fW) 0 0).res = .ok (.prim 4) := by
  have h := c4_singleton_stable envW 0 cSingle 0 (.prim 4) rfl 0
  exact ⟨h.1, h.2.1 1 (.prim 9) (by decide), h.2.2.1 1 (.prim 9) (by decide),
    h.2.2.2 1 fW (by decide)⟩

/-- Claim C8: a key with no registration under any variant and not denoting
a class fails with `UnresolvedDependency` naming the key; the failure is the
synchronous return value of `get` — the state is untouched, no factory is
invoked, nothing is retried or recovered. -/
theorem c8_unresolved (env : Env) (n : Nat) (c : DIContainer) (k : Key) (t : Nat)
    (h1 : c.singletons k = none) (h2 : c.services k = none) (h3 : c.factories k = none)
    (h4 : env.classes k = none) :
    resolveFuel env (n + 1) c k t = ⟨.error (.unresolvedDependency k), c, t, []⟩ := by
  simp [resolveFuel, h1, h2, h3, h4]

/-- Witness for C8: the empty container with no classes. -/
theorem c8_unresolved_witness :
    resolveFuel envW 1 DIContainer.empty 7 0
      = ⟨.error (.unresolvedDependency 7), DIContainer.empty, 0, []⟩ :=
  c8_unresolved envW 0 DIContainer.empty 7 0 rfl rfl rfl rfl

/-- Claim C10: a resolve call — returning a value or failing — leaves all
three backing mappings (`_services`, `_singletons`, `_factories`) exactly
as they were: neither factory results nor auto-wired instances are cached,
and failed resolutions do not alter the registry.  (Factories are modelled
as value producers with no access to the container, matching the claim's
proviso that they do not call back into the registration methods.) -/
theorem c10_resolve_preserves_registry (env : Env) (n : Nat) (c : DIContainer) (k : Key)
    (t : Nat) :
    (resolveFuel env n c k t).st.services = c.services
    ∧ (resolveFuel env n c k t).st.singletons = c.singletons
    ∧ (resolveFuel env n c k t).st.factories = c.factories := by
  have h := resolveFuel_st env n c k t
  exact ⟨by rw [h], by rw [h], by rw [h]⟩

/-- Counterexample to C2: the container keeps three separate dicts, so a
registration under a *different* variant does not overwrite the prior one.
After `register_singleton(0, prim 0)` then `register_transient(0, fC2)`
(most recent registration: the factory, whose result is `prim 1`), resolve
returns the older singleton `prim 0` and never invokes the factory (empty
invocation log) — resolution follows priority, not recency. -/
theorem c2_counterexample :
    (resolveFuel envW 1 cC2 0 0).res = .ok (.prim 0)
    ∧ (resolveFuel envW 1 cC2 0 0).log = []
    ∧ cC2.factories 0 = some fC2
    ∧ fC2 0 = .prim 1
    ∧ Value.prim 0 ≠ Value.prim 1 := ⟨rfl, rfl, rfl, rfl, by simp⟩

/-- Claim C2 (amended): each registration variant writes to its own mapping.
Re-registering a key under the *same* variant overwrites (last write wins
within a variant) — in particular after `register_singleton(K, A)` then
`register_singleton(K, B)`, resolve(K) returns B — but a registration under
a *different* variant does not remove an existing entry of another variant:
both coexist and resolve follows the fixed priority singleton > instance >
factory rather than recency (e.g. a factory registered after a singleton
for the same key is never consulted). -/
theorem c2_last_write_within_variant (env : Env) (n : Nat) (c : DIContainer) (k : Key)
    (a b : Value) (f g : Nat → Value) (t : Nat) :
    (resolveFuel env (n + 1) (register_singleton (register_singleton c k a) k b) k t).res = .ok b
    ∧ (c.singletons k = none →
        (resolveFuel env (n + 1) (register_instance (register_instance c k a) k b) k t).res
          = .ok b)
    ∧ (c.singletons k = none → c.services k = none →
        resolveFuel env (n + 1) (register_transient (register_transient c k f) k g) k t
          = ⟨.ok (g t), register_transient (register_transient c k f) k g, t + 1, [k]⟩)
    ∧ (resolveFuel env (n + 1) (register_transient (register_singleton c k a) k f) k t).res
        = .ok a := by
  refine ⟨?_, ?_, ?_, ?_⟩
  · simp [resolveFuel, register_singleton]
  · intro h1
    simp [resolveFuel, register_instance, h1]
  · intro h1 h2
    simp [resolveFuel, register_transient, h1, h2]
  · simp [resolveFuel, register_transient, register_singleton]

/-- Witness for C2 (amended), at key 0 on the empty container. -/
theorem c2_last_write_within_variant_witness :
    (resolveFuel envW 1 (register_singleton (register_singleton DIContainer.empty 0 (.prim 0))
        0 (.prim 1)) 0 0).res = .ok (.prim 1)
    ∧ (resolveFuel envW 1 (register_instance (register_instance DIContainer.empty 0 (.prim 0))
        0 (.prim 1)) 0 0).res = .ok (.prim 1)
    ∧ resolveFuel envW 1 (register_transient (register_transient DIContainer.empty 0 fW) 0 fC2)
        0 0
        = ⟨.ok (.prim 1), register_transient (register_transient DIContainer.empty 0 fW) 0 fC2,
            1, [0]⟩
    ∧ (resolveFuel envW 1 (register_transient (register_singleton DIContainer.empty 0 (.prim 0))
        0 fC2) 0 0).res = .ok (.prim 0) := by
  have h := c2_last_write_within_variant envW 0 DIContainer.empty 0 (.prim 0) (.prim 1) fW fC2 0
  exact ⟨h.1, h.2.1 rfl, h.2.2.1 rfl rfl, h.2.2.2⟩

/-- Counterexample to C5: a key registered via `register_transient` but also
holding a singleton entry.  The claim demands each resolve call invoke the
factory exactly once; here resolve returns the singleton, the invocation log
is empty (zero invocations), and the result is not the factory's. -/
theorem c5_counterexample :
    cC5.factories 0 = some fC2
    ∧ (resolveFuel envW 1 cC5 0 0).log = []
    ∧ (resolveFuel envW 1 cC5 0 0).res = .ok (.prim 5)
    ∧ fC2 0 = .prim 1
    ∧ Value.prim 5 ≠ Value.prim 1 := ⟨rfl, rfl, rfl, rfl, by simp⟩

/-- Claim C5 (amended): for a key K registered via `register_transient(K, F)`
and not shadowed by a singleton or instance entry for K, each resolve call
invokes F exactly once (the invocation log of one call is `[K]`) and returns
that fresh invocation's result (`F` applied to the current invocation clock,
which advances by one); nothing is cached, so `m` successive resolve calls
produce exactly `m` factory invocations. -/
theorem c5_transient_fresh (env : Env) (n : Nat) (c : DIContainer) (k : Key) (f : Nat → Value)
    (h1 : c.singletons k = none) (h2 : c.services k = none) (h3 : c.factories k = some f) :
    (∀ t, resolveFuel env (n + 1) c k t = ⟨.ok (f t), c, t + 1, [k]⟩)
    ∧ (∀ m t, resolveN env (n + 1) c k m t = List.replicate m k) := by
  have hone : ∀ t, resolveFuel env (n + 1) c k t = ⟨.ok (f t), c, t + 1, [k]⟩ := by
    intro t; simp [resolveFuel, h1, h2, h3]
  refine ⟨hone, ?_⟩
  intro m
  induction m with
  | zero => intro t; rfl
  | succ m ih =>
    intro t
    simp [resolveN, hone t, ih, List.replicate_succ]

/-- Witness for C5 (amended): key 0 registered only via the impure factory
`fW`; one call at clock 5 returns `fW 5 = prim 5` and logs one invocation;
three successive calls log three invocations. -/
theorem c5_transient_fresh_witness :
    resolveFuel envW 1 cFact 0 5 = ⟨.ok (.prim 5), cFact, 6, [0]⟩
    ∧ resolveN envW 1 cFact 0 3 0 = [0, 0, 0] := by
  have h := c5_transient_fresh envW 0 cFact 0 fW rfl rfl rfl
  exact ⟨h.1 5, h.2 3 0⟩

theorem buildFields_of_findArg (hv : Param → Value) :
    ∀ (ps : List Param) (kw : List (String × Value)),
      (∀ p ∈ ps, findArg p.name kw = some (hv p)) →
      buildFields ps kw = .ok (ps.map fun p => (p.name, hv p)) := by
  intro ps
  induction ps with
  | nil => intro kw _; rfl
  | cons p ps ih =>
    intro kw h
    have hp : findArg p.name kw = some (hv p) := h p (List.mem_cons_self p ps)
    have hps : ∀ q ∈ ps, findArg q.name kw = some (hv q) := fun q hq =>
      h q (List.mem_cons_of_mem p hq)
    simp [buildFields, hp, ih kw hps, Except.map]

theorem findArg_map_self (hv : Param → Value) :
    ∀ (ps : List Param), (ps.map Param.name).Nodup →
      ∀ p ∈ ps, findArg p.name (ps.map fun q => (q.name, hv q)) = some (hv p) := by
  intro ps
  induction ps with
  | nil => intro _ p hp; cases hp
  | cons q ps ih =>
    intro hnd p hp
    have hnd' : (∀ x ∈ ps, ¬x.name = q.name) ∧ (ps.map Param.name).Nodup := by
      simpa using hnd
    rcases List.mem_cons.mp hp with hpq | hpm
    · subst hpq
      simp [findArg]
    · have hne : q.name ≠ p.name := fun h => hnd'.1 p hpm h.symm
      simp [findArg, hne, ih hnd'.2 p hpm]

theorem buildKwargs_singletons (env : Env) (n : Nat) (c : DIContainer) (hv : Param → Value) :
    ∀ (ps : List Param) (t : Nat),
      (∀ p ∈ ps, ∃ u, p.hint = some u ∧ c.singletons u = some (hv p)) →
      buildKwargs (resolveFuel env (n + 1)) c ps t
        = ⟨.ok (ps.map fun p => (p.name, hv p)), c, t, []⟩ := by
  intro ps
  induction ps with
  | nil => intro t _; rfl
  | cons p ps ih =>
    intro t h
    obtain ⟨u, hu, hs⟩ := h p (List.mem_cons_self p ps)
    have hr : resolveFuel env (n + 1) c u t = ⟨.ok (hv p), c, t, []⟩ := by
      simp [resolveFuel, hs]
    have hrest := ih t (fun q hq => h q (List.mem_cons_of_mem p hq))
    simp [buildKwargs, hu, hr, hrest, Except.map]

/-- Claim C6: auto-wiring.  For an unregistered constructible type `k` every
one of whose constructor parameters is annotated with a singleton-registered
type, resolve builds the instance by passing each parameter its singleton
value; in particular a parameter annotated with `U`, where `U` holds the
singleton `u`, receives exactly `u`.  (`hv` assigns each parameter the
singleton value of its hint; parameter names are distinct, as in Python.) -/
theorem c6_autowire_singletons (env : Env) (n : Nat) (c : DIContainer) (k : Key)
    (ps : List Param) (hv : Param → Value) (t : Nat)
    (h1 : c.singletons k = none) (h2 : c.services k = none) (h3 : c.factories k = none)
    (h4 : env.classes k = some ps) (h5 : (ps.map Param.name).Nodup)
    (h6 : ∀ p ∈ ps, ∃ u, p.hint = some u ∧ c.singletons u = some (hv p)) :
    resolveFuel env (n + 2) c k t
      = ⟨.ok (.obj k (ps.map fun p => (p.name, hv p))), c, t, []⟩ := by
  have hkw := buildKwargs_singletons env n c hv ps t h6
  have hfa := findArg_map_self hv ps h5
  have hbf := buildFields_of_findArg hv ps (ps.map fun q => (q.name, hv q)) hfa
  have hc : callCtor k ps (ps.map fun q => (q.name, hv q))
      = .ok (.obj k (ps.map fun p => (p.name, hv p))) := by
    simp [callCtor, hbf]
  rw [show n + 2 = n + 1 + 1 from rfl,
    resolve_step_class env (n + 1) c k t ps h1 h2 h3 h4]
  simp only [autoWireWith, hkw, hc]

/-- Witness for C6: class 5 with one parameter `x : 0`, key 0 holding the
singleton `prim 10`; resolve(5) returns an instance of 5 built with
`x = prim 10`. -/
theorem c6_autowire_singletons_witness :
    resolveFuel envAuto 2 cU 5 0 = ⟨.ok (.obj 5 [("x", .prim 10)]), cU, 0, []⟩ := by
  have h := c6_autowire_singletons envAuto 0 cU 5 [⟨"x", some 0, none⟩]
    (fun _ => .prim 10) 0 rfl rfl rfl rfl (by simp)
    (by
      intro p hp
      have hp' : p = (⟨"x", some 0, none⟩ : Param) := by simpa using hp
      subst hp'
      exact ⟨0, rfl, rfl⟩)
  simpa using h

/-- Counterexample to C7: `_auto_wire` does not fail when a constructor
parameter lacks a declared type — `if param_type:` silently *skips* the
parameter.  Class 5 has one unannotated parameter `x` with default `prim 7`;
resolve(5) succeeds with the default instead of failing with
AutoWireFailure. -/
theorem c7_counterexample :
    resolveFuel envDflt 2 DIContainer.empty 5 0
      = ⟨.ok (.obj 5 [("x", .prim 7)]), DIContainer.empty, 0, []⟩ := rfl

/-- Claim C7 (amended): when auto-wiring is attempted, resolve fails with
`AutoWireFailure` wrapping the underlying cause if any recursive resolution
of an *annotated* parameter's type fails, or if the constructor call itself
fails.  A parameter with no declared type is not resolved at all: it is
skipped, takes its default when it has one (no failure), and causes a
failure only indirectly — through the constructor call's missing-argument
error — when it has no default. -/
theorem c7_autowire_failures (env : Env) (n : Nat) (c : DIContainer) (k : Key) (t : Nat)
    (h1 : c.singletons k = none) (h2 : c.services k = none) (h3 : c.factories k = none) :
    (∀ ps e, env.classes k = some ps →
      (buildKwargs (resolveFuel env n) c ps t).res = .error e →
      (resolveFuel env (n + 1) c k t).res = .error (.autoWireFailure k e))
    ∧ (∀ ps kw e, env.classes k = some ps →
      (buildKwargs (resolveFuel env n) c ps t).res = .ok kw →
      callCtor k ps kw = .error e →
      (resolveFuel env (n + 1) c k t).res = .error (.autoWireFailure k e))
    ∧ (∀ nm u d e, env.classes k = some [⟨nm, some u, d⟩] →
      (resolveFuel env n c u t).res = .error e →
      (resolveFuel env (n + 1) c k t).res = .error (.autoWireFailure k e))
    ∧ (∀ nm d, env.classes k = some [⟨nm, none, some d⟩] →
      resolveFuel env (n + 1) c k t = ⟨.ok (.obj k [(nm, d)]), c, t, []⟩)
    ∧ (∀ nm, env.classes k = some [⟨nm, none, none⟩] →
      (resolveFuel env (n + 1) c k t).res
        = .error (.autoWireFailure k (.missingArgument k nm))) := by
  refine ⟨?_, ?_, ?_, ?_, ?_⟩
  · intro ps e h4 hb
    rw [resolve_step_class env n c k t ps h1 h2 h3 h4]
    simp [autoWireWith, hb]
  · intro ps kw e h4 hb hc
    rw [resolve_step_class env n c k t ps h1 h2 h3 h4]
    simp [autoWireWith, hb, hc]
  · intro nm u d e h4 hr
    have hb : (buildKwargs (resolveFuel env n) c [⟨nm, some u, d⟩] t).res = .error e := by
      simp [buildKwargs, hr]
    rw [resolve_step_class env n c k t [⟨nm, some u, d⟩] h1 h2 h3 h4]
    simp [autoWireWith, hb]
  · intro nm d h4
    rw [resolve_step_class env n c k t [⟨nm, none, some d⟩] h1 h2 h3 h4]
    simp [autoWireWith, buildKwargs, callCtor, buildFields, findArg, Except.map]
  · intro nm h4
    rw [resolve_step_class env n c k t [⟨nm, none, none⟩] h1 h2 h3 h4]
    simp [autoWireWith, buildKwargs, callCtor, buildFields, findArg]

/-- Witness for C7 (amended): a nested-resolution failure is wrapped (class
5's parameter is annotated with the unregistered non-class key 9); an
unannotated parameter with a default is skipped and resolve succeeds; an
unannotated parameter without a default makes the constructor call fail,
wrapped as AutoWireFailure(missingArgument). -/
theorem c7_autowire_failures_witness :
    (resolveFuel envHint9 2 DIContainer.empty 5 0).res
      = .error (.autoWireFailure 5 (.unresolvedDependency 9))
    ∧ (resolveFuel envHint9 3 DIContainer.empty 5 0).res
      = .error (.autoWireFailure 5 (.unresolvedDependency 9))
    ∧ resolveFuel envDflt 3 DIContainer.empty 5 0
      = ⟨.ok (.obj 5 [("x", .prim 7)]), DIContainer.empty, 0, []⟩
    ∧ (resolveFuel envNoD 2 DIContainer.empty 5 0).res
      = .error (.autoWireFailure 5 (.missingArgument 5 "x"))
    ∧ (resolveFuel envNoD 3 DIContainer.empty 5 0).res
      = .error (.autoWireFailure 5 (.missingArgument 5 "x")) := by
  have h1 := c7_autowire_failures envHint9 1 DIContainer.empty 5 0 rfl rfl rfl
  have h2 := c7_autowire_failures envHint9 2 DIContainer.empty 5 0 rfl rfl rfl
  have h3 := c7_autowire_failures envDflt 2 DIContainer.empty 5 0 rfl rfl rfl
  have h4 := c7_autowire_failures envNoD 1 DIContainer.empty 5 0 rfl rfl rfl
  have h5 := c7_autowire_failures envNoD 2 DIContainer.empty 5 0 rfl rfl rfl
  exact ⟨h1.2.2.1 "x" 9 none (.unresolvedDependency 9) rfl rfl,
    h2.1 [⟨"x", some 9, none⟩] (.unresolvedDependency 9) rfl rfl,
    h3.2.2.2.1 "x" (.prim 7) rfl,
    h4.2.2.2.2 "x" rfl,
    h5.2.1 [⟨"x", none, none⟩] [] (.missingArgument 5 "x") rfl rfl rfl⟩

theorem buildKwargs_congr (get₁ get₂ : DIContainer → Key → Nat → RRes) (c₁ c₂ : DIContainer)
    (hst₁ : ∀ k t, (get₁ c₁ k t).st = c₁) (hst₂ : ∀ k t, (get₂ c₂ k t).st = c₂)
    (hres : ∀ k t, (get₁ c₁ k t).res = (get₂ c₂ k t).res)
    (hclock : ∀ k t, (get₁ c₁ k t).clock = (get₂ c₂ k t).clock)
    (hlog : ∀ k t, (get₁ c₁ k t).log = (get₂ c₂ k t).log) :
    ∀ (ps : List Param) (t : Nat),
      (buildKwargs get₁ c₁ ps t).res = (buildKwargs get₂ c₂ ps t).res
      ∧ (buildKwargs get₁ c₁ ps t).clock = (buildKwargs get₂ c₂ ps t).clock
      ∧ (buildKwargs get₁ c₁ ps t).log = (buildKwargs get₂ c₂ ps t).log := by
  intro ps
  induction ps with
  | nil => intro t; exact ⟨rfl, rfl, rfl⟩
  | cons p ps ih =>
    intro t
    cases hh : p.hint with
    | none => simpa [buildKwargs, hh] using ih t
    | some k =>
      cases hr1 : (get₁ c₁ k t).res with
      | error e =>
        have hr2 : (get₂ c₂ k t).res = .error e := by rw [← hres k t, hr1]
        simp [buildKwargs, hh, hr1, hr2, hclock k t, hlog k t]
      | ok v =>
        have hr2 : (get₂ c₂ k t).res = .ok v := by rw [← hres k t, hr1]
        obtain ⟨ha, hb, hc⟩ := ih ((get₂ c₂ k t).clock)
        simp only [buildKwargs, hh, hr1, hr2, hst₁ k t, hst₂ k t, hclock k t, hlog k t]
        exact ⟨by rw [ha], hb, by rw [hc]⟩

theorem autoWireWith_congr (get₁ get₂ : DIContainer → Key → Nat → RRes) (c₁ c₂ : DIContainer)
    (hst₁ : ∀ k t, (get₁ c₁ k t).st = c₁) (hst₂ : ∀ k t, (get₂ c₂ k t).st = c₂)
    (hres : ∀ k t, (get₁ c₁ k t).res = (get₂ c₂ k t).res)
    (hclock : ∀ k t, (get₁ c₁ k t).clock = (get₂ c₂ k t).clock)
    (hlog : ∀ k t, (get₁ c₁ k t).log = (get₂ c₂ k t).log)
    (k : Key) (ps : List Param) (t : Nat) :
    (autoWireWith get₁ c₁ k ps t).res = (autoWireWith get₂ c₂ k ps t).res
    ∧ (autoWireWith get₁ c₁ k ps t).clock = (autoWireWith get₂ c₂ k ps t).clock
    ∧ (autoWireWith get₁ c₁ k ps t).log = (autoWireWith get₂ c₂ k ps t).log := by
  obtain ⟨ha, hb, hc⟩ := buildKwargs_congr get₁ get₂ c₁ c₂ hst₁ hst₂ hres hclock hlog ps t
  cases hb1 : (buildKwargs get₁ c₁ ps t).res with
  | error e =>
    have hb2 : (buildKwargs get₂ c₂ ps t).res = .error e := by rw [← ha, hb1]
    simp [autoWireWith, hb1, hb2, hb, hc]
  | ok kw =>
    have hb2 : (buildKwargs get₂ c₂ ps t).res = .ok kw := by rw [← ha, hb1]
    cases hcc : callCtor k ps kw with
    | error e => simp [autoWireWith, hb1, hb2, hcc, hb, hc]
    | ok v => simp [autoWireWith, hb1, hb2, hcc, hb, hc]

/-- Counterexample to C3: after `register_singleton(0, prim 0)` then
`register_instance(0, prim 1)`, resolve(0) returns `prim 0` (the singleton
shadows the instance); replacing the `register_singleton` call by
`register_instance` with the same key and value makes the same subsequent
resolve return `prim 1` — swapping the variants changed resolve's output. -/
theorem c3_counterexample :
    (resolveFuel envW 1 cC3s 0 0).res = .ok (.prim 0)
    ∧ (resolveFuel envW 1 cC3i 0 0).res = .ok (.prim 1)
    ∧ Value.prim 0 ≠ Value.prim 1 := ⟨rfl, rfl, by simp⟩

/-- Claim C3 (amended): `register_instance` and `register_singleton` are
observably equivalent as long as no key is simultaneously bound in both the
singleton and the instance mapping: any two containers that agree, for every
key, on the effective fixed binding (the singleton entry if present, else
the instance entry) and on the factory mapping produce identical results —
value or error, invocation clock and factory-invocation log — for every
subsequent resolve of every key.  Swapping a lone `register_singleton(K, V)`
for `register_instance(K, V)` preserves this agreement; the equivalence
fails only when the same key is bound in both mappings, where the singleton
shadows regardless of registration order. -/
theorem c3_instance_singleton_equiv (env : Env) (c₁ c₂ : DIContainer)
    (hb : ∀ k, effBinding c₁ k = effBinding c₂ k)
    (hf : ∀ k, c₁.factories k = c₂.factories k) :
    ∀ (n : Nat) (k : Key) (t : Nat),
      (resolveFuel env n c₁ k t).res = (resolveFuel env n c₂ k t).res
      ∧ (resolveFuel env n c₁ k t).clock = (resolveFuel env n c₂ k t).clock
      ∧ (resolveFuel env n c₁ k t).log = (resolveFuel env n c₂ k t).log := by
  intro n
  induction n with
  | zero => intro k t; exact ⟨rfl, rfl, rfl⟩
  | succ n ih =>
    intro k t
    cases hs1 : c₁.singletons k with
    | some v =>
      have h2 : effBinding c₂ k = some v := by rw [← hb k]; simp [effBinding, hs1]
      cases hs2 : c₂.singletons k with
      | some w =>
        have hw : w = v := by simpa [effBinding, hs2] using h2
        subst hw
        simp [resolveFuel, hs1, hs2]
      | none =>
        have hv2 : c₂.services k = some v := by simpa [effBinding, hs2] using h2
        simp [resolveFuel, hs1, hs2, hv2]
    | none =>
      cases hv1 : c₁.services k with
      | some v =>
        have h2 : effBinding c₂ k = some v := by rw [← hb k]; simp [effBinding, hs1, hv1]
        cases hs2 : c₂.singletons k with
        | some w =>
          have hw : w = v := by simpa [effBinding, hs2] using h2
          subst hw
          simp [resolveFuel, hs1, hv1, hs2]
        | none =>
          have hv2 : c₂.services k = some v := by simpa [effBinding, hs2] using h2
          simp [resolveFuel, hs1, hv1, hs2, hv2]
      | none =>
        have h2 : effBinding c₂ k = none := by rw [← hb k]; simp [effBinding, hs1, hv1]
        have hs2 : c₂.singletons k = none := by
          cases hs2' : c₂.singletons k with
          | none => rfl
          | some w => rw [show effBinding c₂ k = some w by simp [effBinding, hs2']] at h2; cases h2
        have hv2 : c₂.services k = none := by simpa [effBinding, hs2] using h2
        cases hf1 : c₁.factories k with
        | some f =>
          have hf2 : c₂.factories k = some f := by rw [← hf k]; exact hf1
          simp [resolveFuel, hs1, hv1, hs2, hv2, hf1, hf2]
        | none =>
          have hf2 : c₂.factories k = none := by rw [← hf k]; exact hf1
          cases he : env.classes k with
          | some ps =>
            rw [resolve_step_class env n c₁ k t ps hs1 hv1 hf1 he,
              resolve_step_class env n c₂ k t ps hs2 hv2 hf2 he]
            exact autoWireWith_congr (resolveFuel env n) (resolveFuel env n) c₁ c₂
              (fun k' t' => resolveFuel_st env n c₁ k' t')
              (fun k' t' => resolveFuel_st env n c₂ k' t')
              (fun k' t' => (ih k' t').1) (fun k' t' => (ih k' t').2.1)
              (fun k' t' => (ih k' t').2.2) k ps t
          | none => simp [resolveFuel, hs1, hv1, hs2, hv2, hf1, hf2, he]

/-- Witness for C3 (amended): key 0 bound to `prim 4` once as a singleton
(`cSingle`) and once as an instance (`cInst4`); the two containers agree on
every effective binding and every resolve result coincides. -/
theorem c3_instance_singleton_equiv_witness :
    (resolveFuel envW 1 cSingle 0 0).res = (resolveFuel envW 1 cInst4 0 0).res
    ∧ (resolveFuel envW 1 cSingle 3 0).res = (resolveFuel envW 1 cInst4 3 0).res := by
  have h := c3_instance_singleton_equiv envW cSingle cInst4
    (by
      intro k
      by_cases hk : k = 0 <;>
        simp [effBinding, cSingle, cInst4, register_singleton, register_instance,
          DIContainer.empty, hk])
    (fun k => rfl)
  exact ⟨(h 1 0 0).1, (h 1 3 0).1⟩

theorem buildKwargs_error_src (get : DIContainer → Key → Nat → RRes) (c : DIContainer)
    (hst : ∀ k t, (get c k t).st = c) :
    ∀ (ps : List Param) (t : Nat) (e : Err),
      (buildKwargs get c ps t).res = .error e →
      ∃ p ∈ ps, ∃ u t', p.hint = some u ∧ (get c u t').res = .error e := by
  intro ps
  induction ps with
  | nil => intro t e he; simp [buildKwargs] at he
  | cons p ps ih =>
    intro t e he
    cases hh : p.hint with
    | none =>
      rw [show buildKwargs get c (p :: ps) t = buildKwargs get c ps t by
        simp [buildKwargs, hh]] at he
      obtain ⟨q, hq, u, t', hu, hr⟩ := ih t e he
      exact ⟨q, List.mem_cons_of_mem p hq, u, t', hu, hr⟩
    | some u =>
      cases hr : (get c u t).res with
      | error e' =>
        rw [show (buildKwargs get c (p :: ps) t).res = .error e' by
          simp [buildKwargs, hh, hr]] at he
        injection he with hee
        subst hee
        exact ⟨p, List.mem_cons_self p ps, u, t, hh, hr⟩
      | ok v =>
        have hrw : (buildKwargs get c (p :: ps) t).res
            = ((buildKwargs get c ps ((get c u t).clock)).res).map (fun l => (p.name, v) :: l) := by
          simp [buildKwargs, hh, hr, hst u t]
        rw [hrw] at he
        cases hrest : (buildKwargs get c ps ((get c u t).clock)).res with
        | error e'' =>
          rw [hrest] at he
          simp [Except.map] at he
          obtain ⟨q, hq, w, t', hw, hr'⟩ := ih ((get c u t).clock) e'' hrest
          subst he
          exact ⟨q, List.mem_cons_of_mem p hq, w, t', hw, hr'⟩
        | ok l => rw [hrest] at he; simp [Except.map] at he

theorem callCtor_error_shape (k : Key) (ps : List Param) (kw : List (String × Value)) (e : Err)
    (h : callCtor k ps kw = .error e) : ∃ nm, e = .missingArgument k nm := by
  unfold callCtor at h
  cases hbf : buildFields ps kw with
  | error nm => rw [hbf] at h; exact ⟨nm, by rw [Except.error.injEq] at h; exact h.symm⟩
  | ok l => rw [hbf] at h; cases h

theorem resolve_cyclic_depth (env : Env) (c : DIContainer) (chain : Nat → Key)
    (hu : ∀ i, c.singletons (chain i) = none ∧ c.services (chain i) = none
      ∧ c.factories (chain i) = none)
    (hc : ∀ i, ∃ nm d ps, env.classes (chain i) = some (⟨nm, some (chain (i + 1)), d⟩ :: ps)) :
    ∀ (fuel i t : Nat), resIsDepthFailure (resolveFuel env fuel c (chain i) t).res = true := by
  intro fuel
  induction fuel with
  | zero => intro i t; rfl
  | succ n ih =>
    intro i t
    obtain ⟨hu1, hu2, hu3⟩ := hu i
    obtain ⟨nm, d, ps, he⟩ := hc i
    rw [resolve_step_class env n c (chain i) t _ hu1 hu2 hu3 he]
    have hr := ih (i + 1) t
    cases hres : (resolveFuel env n c (chain (i + 1)) t).res with
    | ok v => rw [hres] at hr; simp [resIsDepthFailure] at hr
    | error e =>
      rw [hres] at hr
      have he' : isDepthFailure e = true := hr
      have hb : (buildKwargs (resolveFuel env n) c (⟨nm, some (chain (i + 1)), d⟩ :: ps) t).res
          = .error e := by
        simp [buildKwargs, hres]
      simp [autoWireWith, hb, resIsDepthFailure, isDepthFailure, he']

theorem resolve_acyclic_no_depth (env : Env) (c : DIContainer) (rank : Key → Nat)
    (hrk : ∀ k ps, env.classes k = some ps → ∀ p ∈ ps, ∀ u, p.hint = some u → rank u < rank k) :
    ∀ (fuel k t : Nat), rank k < fuel →
      resIsDepthFailure (resolveFuel env fuel c k t).res = false := by
  intro fuel
  induction fuel with
  | zero => intro k t hlt; exact absurd hlt (Nat.not_lt_zero _)
  | succ n ih =>
    intro k t hlt
    cases hs : c.singletons k with
    | some v => simp [resolveFuel, hs, resIsDepthFailure]
    | none =>
      cases hv : c.services k with
      | some v => simp [resolveFuel, hs, hv, resIsDepthFailure]
      | none =>
        cases hfa : c.factories k with
        | some f => simp [resolveFuel, hs, hv, hfa, resIsDepthFailure]
        | none =>
          cases he : env.classes k with
          | none => simp [resolveFuel, hs, hv, hfa, he, resIsDepthFailure, isDepthFailure]
          | some ps =>
            rw [resolve_step_class env n c k t ps hs hv hfa he]
            cases hbr : (buildKwargs (resolveFuel env n) c ps t).res with
            | error e =>
              obtain ⟨p, hp, u, t', hh, hr⟩ := buildKwargs_error_src (resolveFuel env n) c
                (fun k' t'' => resolveFuel_st env n c k' t'') ps t e hbr
              have hun : rank u < n :=
                Nat.lt_of_lt_of_le (hrk k ps he p hp u hh) (Nat.lt_succ_iff.mp hlt)
              have hnd := ih u t' hun
              rw [hr] at hnd
              simp [autoWireWith, hbr, resIsDepthFailure, isDepthFailure] at hnd ⊢
              exact hnd
            | ok kw =>
              cases hcc : callCtor k ps kw with
              | error e =>
                obtain ⟨nm, rfl⟩ := callCtor_error_shape k ps kw e hcc
                simp [autoWireWith, hbr, hcc, resIsDepthFailure, isDepthFailure]
              | ok v => simp [autoWireWith, hbr, hcc, resIsDepthFailure]

/-- Claim C9: auto-wire resolution has no cycle detection.  First conjunct:
along any infinite chain of unregistered constructible keys each of whose
first constructor parameter is annotated with the next key (a dependency
cycle unrolls to such a chain — in particular a self-dependent type, with
the constant chain), resolve never terminates normally: for *every*
recursion-depth budget the outcome is a depth failure (`depthExceeded`,
wrapped by the enclosing auto-wire frames).  Second conjunct: on an acyclic
dependency graph — witnessed by a rank function that strictly decreases
from a class to each of its parameters' hinted types — the mutual recursion
of `get` and `_auto_wire` terminates: with any fuel above the key's rank,
the outcome (value or ordinary error) is never a depth failure. -/
theorem c9_no_cycle_detection (env : Env) (c : DIContainer) :
    (∀ (chain : Nat → Key),
      (∀ i, c.singletons (chain i) = none ∧ c.services (chain i) = none
        ∧ c.factories (chain i) = none) →
      (∀ i, ∃ nm d ps, env.classes (chain i) = some (⟨nm, some (chain (i + 1)), d⟩ :: ps)) →
      ∀ (fuel i t : Nat), resIsDepthFailure (resolveFuel env fuel c (chain i) t).res = true)
    ∧ (∀ (rank : Key → Nat),
      (∀ k ps, env.classes k = some ps → ∀ p ∈ ps, ∀ u, p.hint = some u → rank u < rank k) →
      ∀ (fuel k t : Nat), rank k < fuel →
        resIsDepthFailure (resolveFuel env fuel c k t).res = false) :=
  ⟨fun chain hu hc => resolve_cyclic_depth env c chain hu hc,
    fun rank hrk => resolve_acyclic_no_depth env c rank hrk⟩

/-- Witness for C9: class 5 of `envLoop` depends directly on itself — with
fuel 4 (or any fuel) resolution is a depth failure; class 5 of `envAuto`
depends only on the non-class key 0 (rank 1 over rank 0) — with fuel 2 the
resolution of key 5 completes without a depth failure. -/
theorem c9_no_cycle_detection_witness :
    resIsDepthFailure (resolveFuel envLoop 4 DIContainer.empty 5 0).res = true
    ∧ resIsDepthFailure (resolveFuel envAuto 2 cU 5 0).res = false := by
  have h1 := (c9_no_cycle_detection envLoop DIContainer.empty).1 (fun _ => 5)
    (fun _ => ⟨rfl, rfl, rfl⟩) (fun _ => ⟨"x", none, [], rfl⟩) 4 0 0
  have h2 := (c9_no_cycle_detection envAuto cU).2 rankW
    (by
      intro k ps hps p hp u hu
      by_cases hk : k = 5
      · subst hk
        simp [envAuto] at hps
        subst hps
        simp at hp
        subst hp
        simp at hu
        subst hu
        simp [rankW]
      · simp [envAuto, hk] at hps)
    2 5 0 (by simp [rankW])
  exact ⟨h1, h2⟩

end PyToolkit
